import Mathlib

/-!
Verification development for the Secure Folder backend (`src/backend/server.py`).

The backend is a FastAPI application over five MongoDB collections
(`users`, `documents`, `access_logs`, `failed_attempts`, `intruder_photos`).
This file gives a shallow embedding of the data model and of every route the
claims touch, and proves or refutes the claims about them.

Modelling conventions:
- The Mongo database is an explicit record of five lists, one per collection;
  `insert_one` appends, `find_one` takes the first match in collection order,
  `update_one` / `delete_one` touch the first match only, and
  `find(...).sort("timestamp", -1).to_list(n)` is filter, sort by timestamp
  descending, truncate to `n`.
- `datetime.utcnow()` values are abstract clock ticks (`Nat`), threaded into
  each operation as a `now` argument; `uuid.uuid4()` results are threaded in as
  generated-id arguments.
- `latitude` / `longitude` payloads are opaque to every claim (the code never
  computes with them), so they are modelled as `Option Int`.
- Each route returns the (possibly updated) database together with
  `Except HTTPException response`, mirroring FastAPI's raise-to-status mapping;
  raising never rolls back writes that already happened, and the embedding
  keeps the source's write-then-check order.
- `hash_pin` is `hashlib.sha256(pin.encode()).hexdigest()`: the full SHA-256
  of the UTF-8 encoding, rendered as 64 lower-case hex digits, is implemented
  below and validated against the standard test vectors.
-/

/-! ### SHA-256 (`hashlib.sha256(...).hexdigest()` used by `hash_pin`, line 111) -/

/-- Reduce a natural number modulo 2^32, the word size of SHA-256. -/
def w32 (x : Nat) : Nat := x % 4294967296

/-- Rotate a 32-bit word right by `n` bits. -/
def rotr32 (n x : Nat) : Nat := w32 ((x >>> n) ||| (x <<< (32 - n)))

/-- SHA-256 small sigma-0. -/
def sigma0 (x : Nat) : Nat := (rotr32 7 x) ^^^ (rotr32 18 x) ^^^ (x >>> 3)

/-- SHA-256 small sigma-1. -/
def sigma1 (x : Nat) : Nat := (rotr32 17 x) ^^^ (rotr32 19 x) ^^^ (x >>> 10)

/-- SHA-256 big Sigma-0. -/
def bigSigma0 (x : Nat) : Nat := (rotr32 2 x) ^^^ (rotr32 13 x) ^^^ (rotr32 22 x)

/-- SHA-256 big Sigma-1. -/
def bigSigma1 (x : Nat) : Nat := (rotr32 6 x) ^^^ (rotr32 11 x) ^^^ (rotr32 25 x)

/-- SHA-256 choice function (`~x` is `x XOR 0xFFFFFFFF` on 32-bit words). -/
def chF (x y z : Nat) : Nat := (x &&& y) ^^^ ((x ^^^ 4294967295) &&& z)

/-- SHA-256 majority function. -/
def majF (x y z : Nat) : Nat := (x &&& y) ^^^ (x &&& z) ^^^ (y &&& z)

/-- The 64 SHA-256 round constants. -/
def shaK : List Nat :=
  [1116352408, 1899447441, 3049323471, 3921009573, 961987163,
   1508970993, 2453635748, 2870763221, 3624381080, 310598401,
   607225278, 1426881987, 1925078388, 2162078206, 2614888103,
   3248222580, 3835390401, 4022224774, 264347078, 604807628,
   770255983, 1249150122, 1555081692, 1996064986, 2554220882,
   2821834349, 2952996808, 3210313671, 3336571891, 3584528711,
   113926993, 338241895, 666307205, 773529912, 1294757372,
   1396182291, 1695183700, 1986661051, 2177026350, 2456956037,
   2730485921, 2820302411, 3259730800, 3345764771, 3516065817,
   3600352804, 4094571909, 275423344, 430227734, 506948616,
   659060556, 883997877, 958139571, 1322822218, 1537002063,
   1747873779, 1955562222, 2024104815, 2227730452, 2361852424,
   2428436474, 2756734187, 3204031479, 3329325298]

/-- The eight SHA-256 initial hash words. -/
def shaInitH : List Nat :=
  [1779033703, 3144134277, 1013904242, 2773480762,
   1359893119, 2600822924, 528734635, 1541459225]

/-- UTF-8 encoding of one character, as the list of its byte values
(`pin.encode()` in the source). -/
def utf8EncodeChar (c : Char) : List Nat :=
  let n := c.toNat
  if n < 0x80 then [n]
  else if n < 0x800 then [0xC0 ||| (n >>> 6), 0x80 ||| (n &&& 0x3F)]
  else if n < 0x10000 then
    [0xE0 ||| (n >>> 12), 0x80 ||| ((n >>> 6) &&& 0x3F), 0x80 ||| (n &&& 0x3F)]
  else
    [0xF0 ||| (n >>> 18), 0x80 ||| ((n >>> 12) &&& 0x3F),
     0x80 ||| ((n >>> 6) &&& 0x3F), 0x80 ||| (n &&& 0x3F)]

/-- UTF-8 encoding of a string as a list of byte values. -/
def utf8Encode (s : String) : List Nat :=
  s.data.foldr (fun c acc => utf8EncodeChar c ++ acc) []

/-- Big-endian byte representation of `n`, `k` bytes wide. -/
def toBytesBE (k n : Nat) : List Nat :=
  (List.range k).map (fun i => (n >>> (8 * (k - 1 - i))) % 256)

/-- SHA-256 message padding: append `0x80`, zero bytes up to 56 mod 64, and the
64-bit big-endian bit length. -/
def shaPad (msg : List Nat) : List Nat :=
  let L := msg.length
  let padZeros := (119 - L % 64) % 64
  msg ++ [0x80] ++ List.replicate padZeros 0 ++ toBytesBE 8 (8 * L)

/-- Group bytes into big-endian 32-bit words, four bytes per word
(fuel-based so that the kernel can evaluate it). -/
def bytesToWordsAux : Nat → List Nat → List Nat
  | 0, _ => []
  | _, [] => []
  | fuel+1, bs => (bs.take 4).foldl (fun acc b => acc * 256 + b) 0 :: bytesToWordsAux fuel (bs.drop 4)

/-- Group bytes into big-endian 32-bit words. -/
def bytesToWords (bs : List Nat) : List Nat := bytesToWordsAux bs.length bs

/-- Split a byte list into 64-byte blocks (fuel-based). -/
def blocksAux : Nat → List Nat → List (List Nat)
  | 0, _ => []
  | _, [] => []
  | fuel+1, bs => bs.take 64 :: blocksAux fuel (bs.drop 64)

/-- Split a byte list into 64-byte blocks. -/
def blocks (bs : List Nat) : List (List Nat) := blocksAux bs.length bs

/-- Extend the 16 message words of a block by `n` further schedule words. -/
def scheduleAux : Nat → List Nat → List Nat
  | 0, w => w
  | n+1, w =>
    let i := w.length
    scheduleAux n (w ++ [w32 (sigma1 (w.getD (i-2) 0) + w.getD (i-7) 0 +
                              sigma0 (w.getD (i-15) 0) + w.getD (i-16) 0)])

/-- The 64-entry SHA-256 message schedule of a block. -/
def schedule (w : List Nat) : List Nat := scheduleAux 48 w

/-- One round of the SHA-256 compression function on the eight working words. -/
def compressStep (st : List Nat) (kw : Nat × Nat) : List Nat :=
  match st with
  | [a, b, c, d, e, f, g, h] =>
    let t1 := w32 (h + bigSigma1 e + chF e f g + kw.1 + kw.2)
    let t2 := w32 (bigSigma0 a + majF a b c)
    [w32 (t1 + t2), a, b, c, w32 (d + t1), e, f, g]
  | other => other

/-- Process one 64-byte block, updating the eight hash words. -/
def compressBlock (h : List Nat) (block : List Nat) : List Nat :=
  let st := (shaK.zip (schedule (bytesToWords block))).foldl compressStep h
  List.zipWith (fun a b => w32 (a + b)) h st

/-- The eight 32-bit words of the SHA-256 digest of a byte list. -/
def sha256Words (msg : List Nat) : List Nat :=
  (blocks (shaPad msg)).foldl compressBlock shaInitH

/-- Lower-case hexadecimal digit. -/
def hexDigitChar (n : Nat) : Char :=
  if n < 10 then Char.ofNat (48 + n) else Char.ofNat (87 + n)

/-- Lower-case hexadecimal rendering of a 32-bit word, 8 digits wide. -/
def toHex8 (n : Nat) : List Char :=
  (List.range 8).map (fun i => hexDigitChar ((n >>> (4 * (7 - i))) % 16))

/-- Hexadecimal digest string, as produced by hashlib's `hexdigest()`. -/
def sha256Hex (msg : List Nat) : String :=
  String.mk ((sha256Words msg).foldr (fun w acc => toHex8 w ++ acc) [])

/-- `hash_pin` (server.py lines 109-111): SHA-256 hex digest of the PIN's
UTF-8 encoding. -/
def hash_pin (pin : String) : String := sha256Hex (utf8Encode pin)

/-- `verify_pin` (server.py lines 113-115): compare the digest of the submitted
PIN with the stored digest. -/
def verify_pin (pin : String) (hashed : String) : Bool := hash_pin pin == hashed

/-! ### Data model: the five MongoDB collections -/

/-- The `user_dict` persisted by `create_user` (server.py lines 216-222). -/
structure UserRecord where
  id : String
  email : String
  pin_hash : String
  created_at : Nat
  is_premium : Bool
deriving DecidableEq, Repr

/-- The `Document` model (server.py lines 51-58), as stored in `db.documents`. -/
structure Document where
  id : String
  user_id : String
  doc_type : String
  name : String
  image_base64 : String
  created_at : Nat
  updated_at : Nat
deriving DecidableEq, Repr

/-- The `OfficerAccess` model (server.py lines 66-75), as stored in
`db.access_logs`. -/
structure OfficerAccess where
  id : String
  user_id : String
  officer_name : String
  badge_number : String
  timestamp : Nat
  latitude : Option Int
  longitude : Option Int
  address : Option String
  documents_viewed : List String
deriving DecidableEq, Repr

/-- A document of the `db.failed_attempts` collection.  The plain
`/failed-attempt` route stores the `FailedAttempt` model (server.py lines
86-91), which has no `has_photo` field; the `/failed-attempt/alert` route
stores a raw dict that adds `has_photo` (line 418).  The optional field
records both shapes: `none` means the field is absent. -/
structure FailedAttemptDoc where
  id : String
  user_id : String
  timestamp : Nat
  latitude : Option Int
  longitude : Option Int
  has_photo : Option Bool
deriving DecidableEq, Repr

/-- The `photo_record` persisted in `db.intruder_photos`
(server.py lines 423-429). -/
structure IntruderPhoto where
  id : String
  attempt_id : String
  user_id : String
  timestamp : Nat
  photo_base64 : String
deriving DecidableEq, Repr

/-- The whole MongoDB database: one list per collection, in insertion order. -/
structure DB where
  users : List UserRecord
  documents : List Document
  access_logs : List OfficerAccess
  failed_attempts : List FailedAttemptDoc
  intruder_photos : List IntruderPhoto
deriving DecidableEq, Repr

/-! ### Request and response shapes -/

/-- `UserCreate` (server.py lines 37-39); the email arrives already validated
by `EmailStr`. -/
structure UserCreate where
  email : String
  pin : String
deriving DecidableEq, Repr

/-- `PinVerify` (server.py lines 47-49). -/
structure PinVerify where
  user_id : String
  pin : String
deriving DecidableEq, Repr

/-- `DocumentCreate` (server.py lines 60-64). -/
structure DocumentCreate where
  user_id : String
  doc_type : String
  name : String
  image_base64 : String
deriving DecidableEq, Repr

/-- `OfficerAccessCreate` (server.py lines 77-84). -/
structure OfficerAccessCreate where
  user_id : String
  officer_name : String
  badge_number : String
  latitude : Option Int
  longitude : Option Int
  address : Option String
  documents_viewed : List String
deriving DecidableEq, Repr

/-- `FailedAttemptCreate` (server.py lines 93-96). -/
structure FailedAttemptCreate where
  user_id : String
  latitude : Option Int
  longitude : Option Int
deriving DecidableEq, Repr

/-- `EmailAlertRequest` (server.py lines 98-103). -/
structure EmailAlertRequest where
  user_id : String
  email : String
  latitude : Option Int
  longitude : Option Int
  intruder_photo : Option String
deriving DecidableEq, Repr

/-- `UserResponse` (server.py lines 41-45). -/
structure UserResponse where
  id : String
  email : String
  created_at : Nat
  is_premium : Bool
deriving DecidableEq, Repr

/-- The `{"success": ..., "message": ...}` response shape used by several
routes. -/
structure MsgResponse where
  success : Bool
  message : String
deriving DecidableEq, Repr

/-- A raised `HTTPException`, carrying the HTTP status code and detail. -/
structure HTTPException where
  status_code : Nat
  detail : String
deriving DecidableEq, Repr

/-- One entry of the export report built by `export_access_logs`
(server.py lines 381-390); the timestamp is the `isoformat()` text. -/
structure ExportLogEntry where
  officer_name : String
  badge_number : String
  timestamp : String
  latitude : Option Int
  longitude : Option Int
  address : Option String
  documents_viewed : List String
deriving DecidableEq, Repr

/-- The `export_data` report of `export_access_logs`
(server.py lines 374-379). -/
structure ExportData where
  user_email : String
  export_date : String
  total_accesses : Nat
  logs : List ExportLogEntry
deriving DecidableEq, Repr

/-- The reduced projection returned by `get_failed_attempts`
(server.py line 448): exactly id, timestamp, latitude, longitude. -/
structure FailedAttemptView where
  id : String
  timestamp : Nat
  latitude : Option Int
  longitude : Option Int
deriving DecidableEq, Repr

/-! ### Store primitives (MongoDB call semantics) -/

/-- Python `str.lower()` as used by `get_user_by_email` (server.py line 250):
per-character ASCII lowering (emails here are ASCII; implemented directly so
the kernel can evaluate it). -/
def lowerChar (c : Char) : Char :=
  if 65 <= c.toNat && c.toNat <= 90 then Char.ofNat (c.toNat + 32) else c

/-- Python `str.lower()` on a whole string. -/
def pyLower (s : String) : String := String.mk (s.data.map lowerChar)

/-- Python truthiness of an optional string: `None` and `""` are falsy.
This is the test both `if data.intruder_photo:` (line 422) and
`if name:` / `if image_base64:` (lines 329, 331) perform. -/
def pyTruthy (o : Option String) : Bool :=
  match o with
  | none => false
  | some s => !s.isEmpty

/-- `update_one`: apply `f` to the first element matching `p`, returning the
updated list and the matched count (0 or 1). -/
def updateOne (p : α → Bool) (f : α → α) : List α → List α × Nat
  | [] => ([], 0)
  | x :: xs =>
    if p x then (f x :: xs, 1)
    else
      let r := updateOne p f xs
      (x :: r.1, r.2)

/-- `delete_one`: remove the first element matching `p`, returning the
remaining list and the deleted count (0 or 1). -/
def deleteOne (p : α → Bool) : List α → List α × Nat
  | [] => ([], 0)
  | x :: xs =>
    if p x then (xs, 1)
    else
      let r := deleteOne p xs
      (x :: r.1, r.2)

/-- Insert `x` into a list kept in descending `key` order. -/
def insertDescBy (key : α → Nat) (x : α) : List α → List α
  | [] => [x]
  | y :: ys => if key y ≤ key x then x :: y :: ys else y :: insertDescBy key x ys

/-- Sort a list into descending `key` order (insertion sort, so the kernel can
evaluate it). -/
def sortDescBy (key : α → Nat) : List α → List α
  | [] => []
  | x :: xs => insertDescBy key x (sortDescBy key xs)

/-- `find(filter).sort("timestamp", -1).to_list(cap)`: the records matching
`p`, in descending `key` order, truncated to `cap`. -/
def fetchDesc (key : α → Nat) (cap : Nat) (p : α → Bool) (l : List α) : List α :=
  (sortDescBy key (l.filter p)).take cap

/-- `datetime.isoformat()`: timestamps are abstract clock ticks, and this is
their canonical textual rendering. -/
def isoformat (t : Nat) : String := toString t

/-! ### Routes -/

/-- `create_user`, POST /users (server.py lines 208-231): conflict when
`find_one({"email": user.email})` (exact, case-sensitive match) hits, else
insert the new user dict and return the public view. -/
def create_user (db : DB) (user : UserCreate) (genId : String) (now : Nat) :
    DB × Except HTTPException UserResponse :=
  match db.users.find? (fun u => u.email == user.email) with
  | some _ => (db, Except.error ⟨400, "User already exists"⟩)
  | none =>
    let u : UserRecord :=
      { id := genId, email := user.email, pin_hash := hash_pin user.pin,
        created_at := now, is_premium := false }
    ({ db with users := db.users ++ [u] },
     Except.ok { id := u.id, email := u.email, created_at := u.created_at,
                 is_premium := u.is_premium })

/-- `get_user`, GET /users/id (server.py lines 233-245). -/
def get_user (db : DB) (user_id : String) : DB × Except HTTPException UserResponse :=
  match db.users.find? (fun u => u.id == user_id) with
  | none => (db, Except.error ⟨404, "User not found"⟩)
  | some u =>
    (db, Except.ok { id := u.id, email := u.email, created_at := u.created_at,
                     is_premium := u.is_premium })

/-- `get_user_by_email`, GET /users/by-email/email (server.py lines 247-259):
note the lookup lowercases the path parameter, unlike `create_user`. -/
def get_user_by_email (db : DB) (email : String) : DB × Except HTTPException UserResponse :=
  match db.users.find? (fun u => u.email == pyLower email) with
  | none => (db, Except.error ⟨404, "User not found"⟩)
  | some u =>
    (db, Except.ok { id := u.id, email := u.email, created_at := u.created_at,
                     is_premium := u.is_premium })

/-- `verify_user_pin`, POST /users/verify-pin (server.py lines 261-271). -/
def verify_user_pin (db : DB) (data : PinVerify) : DB × Except HTTPException MsgResponse :=
  match db.users.find? (fun u => u.id == data.user_id) with
  | none => (db, Except.error ⟨404, "User not found"⟩)
  | some user =>
    if verify_pin data.pin user.pin_hash then (db, Except.ok ⟨true, "PIN verified"⟩)
    else (db, Except.ok ⟨false, "Invalid PIN"⟩)

/-- `update_pin`, PUT /users/id/pin (server.py lines 273-288). -/
def update_pin (db : DB) (user_id old_pin new_pin : String) :
    DB × Except HTTPException MsgResponse :=
  match db.users.find? (fun u => u.id == user_id) with
  | none => (db, Except.error ⟨404, "User not found"⟩)
  | some user =>
    if verify_pin old_pin user.pin_hash then
      ({ db with users := (updateOne (fun u => u.id == user_id)
                            (fun u => { u with pin_hash := hash_pin new_pin }) db.users).1 },
       Except.ok ⟨true, "PIN updated"⟩)
    else (db, Except.error ⟨401, "Invalid current PIN"⟩)

/-- `create_document`, POST /documents (server.py lines 292-303): build the
`Document` with generated id and fresh timestamps, insert it, return it.
There is no failure path and no existence check on `user_id`. -/
def create_document (db : DB) (doc : DocumentCreate) (genId : String) (now : Nat) :
    DB × Document :=
  let d : Document :=
    { id := genId, user_id := doc.user_id, doc_type := doc.doc_type,
      name := doc.name, image_base64 := doc.image_base64,
      created_at := now, updated_at := now }
  ({ db with documents := db.documents ++ [d] }, d)

/-- `get_user_documents`, GET /documents/user_id (server.py lines 305-309). -/
def get_user_documents (db : DB) (user_id : String) : DB × List Document :=
  (db, (db.documents.filter (fun d => d.user_id == user_id)).take 100)

/-- `get_documents_by_type`, GET /documents/user_id/doc_type
(server.py lines 311-315). -/
def get_documents_by_type (db : DB) (user_id doc_type : String) : DB × List Document :=
  (db, (db.documents.filter (fun d => d.user_id == user_id && d.doc_type == doc_type)).take 100)

/-- `delete_document`, DELETE /documents/doc_id (server.py lines 317-323):
`delete_one` runs first, then a 404 is raised when nothing was deleted. -/
def delete_document (db : DB) (doc_id : String) : DB × Except HTTPException MsgResponse :=
  let r := deleteOne (fun d => d.id == doc_id) db.documents
  if r.2 = 0 then ({ db with documents := r.1 }, Except.error ⟨404, "Document not found"⟩)
  else ({ db with documents := r.1 }, Except.ok ⟨true, "Document deleted"⟩)

/-- The `$set` payload of `update_document` (server.py lines 328-332) applied
to one stored document: `update_data` always carries a fresh `updated_at`, and
carries `name` / `image_base64` only when they are truthy (so `""` is not
applied). -/
def applyDocSet (name image_base64 : Option String) (now : Nat) (d : Document) : Document :=
  { d with
    updated_at := now,
    name := if pyTruthy name then name.getD d.name else d.name,
    image_base64 := if pyTruthy image_base64 then image_base64.getD d.image_base64
                    else d.image_base64 }

/-- `update_document`, PUT /documents/doc_id (server.py lines 325-342):
the `$set` touches the first matching document, and a 404 is raised when none
matched. -/
def update_document (db : DB) (doc_id : String) (name image_base64 : Option String)
    (now : Nat) : DB × Except HTTPException MsgResponse :=
  let r := updateOne (fun d => d.id == doc_id) (applyDocSet name image_base64 now) db.documents
  if r.2 = 0 then ({ db with documents := r.1 }, Except.error ⟨404, "Document not found"⟩)
  else ({ db with documents := r.1 }, Except.ok ⟨true, "Document updated"⟩)

/-- `log_officer_access`, POST /access-log (server.py lines 346-360). -/
def log_officer_access (db : DB) (a : OfficerAccessCreate) (genId : String) (now : Nat) :
    DB × OfficerAccess :=
  let rec0 : OfficerAccess :=
    { id := genId, user_id := a.user_id, officer_name := a.officer_name,
      badge_number := a.badge_number, timestamp := now, latitude := a.latitude,
      longitude := a.longitude, address := a.address,
      documents_viewed := a.documents_viewed }
  ({ db with access_logs := db.access_logs ++ [rec0] }, rec0)

/-- `get_access_logs`, GET /access-log/user_id (server.py lines 362-366):
the user's records, newest first, capped at 1000. -/
def get_access_logs (db : DB) (user_id : String) : DB × List OfficerAccess :=
  (db, fetchDesc (fun a => a.timestamp) 1000 (fun a => a.user_id == user_id) db.access_logs)

/-- The log entry built for one record by `export_access_logs`
(server.py lines 381-390); the stored timestamp is a datetime, so the
`isoformat()` branch always applies. -/
def mkExportLogEntry (a : OfficerAccess) : ExportLogEntry :=
  { officer_name := a.officer_name, badge_number := a.badge_number,
    timestamp := isoformat a.timestamp, latitude := a.latitude,
    longitude := a.longitude, address := a.address,
    documents_viewed := a.documents_viewed }

/-- `export_access_logs`, GET /access-log/user_id/export
(server.py lines 368-392): a read-only structured report over the same
fetch as `get_access_logs`. -/
def export_access_logs (db : DB) (user_id : String) (now : Nat) : DB × ExportData :=
  let logs := fetchDesc (fun a => a.timestamp) 1000 (fun a => a.user_id == user_id) db.access_logs
  (db,
   { user_email :=
       match db.users.find? (fun u => u.id == user_id) with
       | some u => u.email
       | none => "Unknown",
     export_date := isoformat now,
     total_accesses := logs.length,
     logs := logs.map mkExportLogEntry })

/-- `log_failed_attempt`, POST /failed-attempt (server.py lines 396-406):
stores the `FailedAttempt` model, which has no `has_photo` field. -/
def log_failed_attempt (db : DB) (a : FailedAttemptCreate) (genId : String) (now : Nat) :
    DB × MsgResponse :=
  let fa : FailedAttemptDoc :=
    { id := genId, user_id := a.user_id, timestamp := now,
      latitude := a.latitude, longitude := a.longitude, has_photo := none }
  ({ db with failed_attempts := db.failed_attempts ++ [fa] },
   ⟨true, "Failed attempt logged"⟩)

/-- `send_failed_attempt_email` (server.py lines 117-204).  The body is all
external effect: when the SendGrid key is absent it logs a warning and returns
`False`; otherwise it dispatches the composed mail and returns whether the
provider answered 202, with every exception caught and mapped to `False`.
The provider's answer (or an exception) is abstracted as `providerOutcome`. -/
def send_failed_attempt_email (sendgridKey : Option String) (providerOutcome : Bool) : Bool :=
  match sendgridKey with
  | none => false
  | some _ => providerOutcome

/-- `send_failed_alert`, POST /failed-attempt/alert (server.py lines 408-442):
build the attempt dict (with `has_photo := intruder_photo is not None`), store
the photo record first when the photo is truthy, insert the attempt, then
attempt the email dispatch and report its boolean outcome. -/
def send_failed_alert (db : DB) (data : EmailAlertRequest) (attemptId photoId : String)
    (now : Nat) (sendgridKey : Option String) (providerOutcome : Bool) : DB × MsgResponse :=
  let attempt : FailedAttemptDoc :=
    { id := attemptId, user_id := data.user_id, timestamp := now,
      latitude := data.latitude, longitude := data.longitude,
      has_photo := some data.intruder_photo.isSome }
  let db1 :=
    if pyTruthy data.intruder_photo then
      { db with intruder_photos := db.intruder_photos ++
          [{ id := photoId, attempt_id := attemptId, user_id := data.user_id,
             timestamp := now, photo_base64 := data.intruder_photo.getD "" }] }
    else db
  let db2 := { db1 with failed_attempts := db1.failed_attempts ++ [attempt] }
  let success := send_failed_attempt_email sendgridKey providerOutcome
  (db2, ⟨success, if success then "Security alert with photo sent"
                  else "Failed to send alert (check SendGrid API key)"⟩)

/-- `get_failed_attempts`, GET /failed-attempts/user_id
(server.py lines 444-448): newest first, capped at 100, projected to the
reduced field set. -/
def get_failed_attempts (db : DB) (user_id : String) : DB × List FailedAttemptView :=
  (db, (fetchDesc (fun a => a.timestamp) 100 (fun a => a.user_id == user_id)
          db.failed_attempts).map
        (fun a => { id := a.id, timestamp := a.timestamp,
                    latitude := a.latitude, longitude := a.longitude }))

/-! ### Fixtures used by witnesses and counterexamples -/

/-- The database value used to factor `hash_pin` through a finite type. -/
def sha256Nat (s : String) : Nat :=
  (sha256Words (utf8Encode s)).foldl (fun acc w => acc * 4294967296 + w) 0

/-- Every word of a list is a 32-bit value. -/
def allW32 (l : List Nat) : Prop := ∀ x ∈ l, x < 4294967296

/-- The empty database. -/
def emptyDB : DB := ⟨[], [], [], [], []⟩

/-- A database with one registered user whose stored email has an upper-case
local part. -/
def caseDB : DB :=
  { emptyDB with users :=
      [{ id := "u1", email := "Alice@example.com", pin_hash := hash_pin "1234",
         created_at := 0, is_premium := false }] }

/-- A database with one registered user, for the PIN-route witnesses. -/
def pinDB : DB :=
  { emptyDB with users :=
      [{ id := "u1", email := "a@example.com", pin_hash := hash_pin "1234",
         created_at := 0, is_premium := false }] }

/-- The single registered user of `pinDB`. -/
def pinUser : UserRecord :=
  { id := "u1", email := "a@example.com", pin_hash := hash_pin "1234",
    created_at := 0, is_premium := false }

/-- A user record with the given stored digest, for the collision argument. -/
def mkUser (ph : String) : UserRecord :=
  { id := "u", email := "e", pin_hash := ph, created_at := 0, is_premium := false }

/-- A database holding exactly `mkUser ph`. -/
def mkUserDB (ph : String) : DB := DB.mk [mkUser ph] [] [] [] []

/-- One access record of user "u"; timestamps decrease as `i` grows, so a list
of these is already sorted and kernel evaluation of the sort stays linear. -/
def mkAccessRec (i : Nat) : OfficerAccess :=
  { id := toString i, user_id := "u", officer_name := "Officer", badge_number := "B1",
    timestamp := 2000 - i, latitude := none, longitude := none, address := none,
    documents_viewed := [] }

/-- A database whose `access_logs` collection holds 1001 records of one user:
one more than the fetch cap of the export route. -/
def bigDB : DB := { emptyDB with access_logs := (List.range 1001).map mkAccessRec }

/-- A small database with two access records and two failed attempts of
user "u". -/
def listsDB : DB :=
  { emptyDB with
    access_logs := [mkAccessRec 5, mkAccessRec 3],
    failed_attempts :=
      [{ id := "f1", user_id := "u", timestamp := 1, latitude := none,
         longitude := none, has_photo := none },
       { id := "f2", user_id := "u", timestamp := 2, latitude := some 10,
         longitude := some 20, has_photo := none }] }

/-- A database with a single stored document, for the document-route witnesses
and the update counterexample. -/
def docDB : DB :=
  { emptyDB with documents :=
      [{ id := "d1", user_id := "u", doc_type := "id", name := "old name",
         image_base64 := "imgdata", created_at := 5, updated_at := 5 }] }

/-- An alert request whose intruder photo is supplied but is the empty string:
present (`is not None`) yet falsy. -/
def emptyPhotoAlert : EmailAlertRequest :=
  { user_id := "u", email := "a@example.com", latitude := none, longitude := none,
    intruder_photo := some "" }

/-- An alert request carrying a real intruder photo. -/
def photoAlert : EmailAlertRequest :=
  { user_id := "u", email := "a@example.com", latitude := some 1, longitude := some 2,
    intruder_photo := some "base64photo" }

/-! ### Lemmas about the store primitives -/

theorem insertDescBy_perm (key : α → Nat) (x : α) (l : List α) :
    List.Perm (insertDescBy key x l) (x :: l) := by
  induction l with
  | nil => simp [insertDescBy]
  | cons y ys ih =>
    simp only [insertDescBy]
    split
    · exact List.Perm.refl _
    · exact (List.Perm.cons y ih).trans (List.Perm.swap x y ys)

theorem sortDescBy_perm (key : α → Nat) (l : List α) :
    List.Perm (sortDescBy key l) l := by
  induction l with
  | nil => simp [sortDescBy]
  | cons x xs ih => exact (insertDescBy_perm key x _).trans (List.Perm.cons x ih)

theorem mem_insertDescBy {key : α → Nat} {x a : α} {l : List α} :
    a ∈ insertDescBy key x l ↔ a = x ∨ a ∈ l := by
  rw [(insertDescBy_perm key x l).mem_iff]
  simp

theorem pairwise_insertDescBy {key : α → Nat} {x : α} {l : List α}
    (h : l.Pairwise (fun a b => key b ≤ key a)) :
    (insertDescBy key x l).Pairwise (fun a b => key b ≤ key a) := by
  induction l with
  | nil => simp [insertDescBy]
  | cons y ys ih =>
    rw [List.pairwise_cons] at h
    simp only [insertDescBy]
    split
    case isTrue hc =>
      rw [List.pairwise_cons]
      refine ⟨fun z hz => ?_, List.pairwise_cons.mpr h⟩
      rcases List.mem_cons.mp hz with rfl | hz
      · exact hc
      · exact le_trans (h.1 z hz) hc
    case isFalse hc =>
      rw [List.pairwise_cons]
      refine ⟨fun z hz => ?_, ih h.2⟩
      rcases mem_insertDescBy.mp hz with rfl | hz
      · exact Nat.le_of_not_le hc
      · exact h.1 z hz

theorem pairwise_sortDescBy (key : α → Nat) (l : List α) :
    (sortDescBy key l).Pairwise (fun a b => key b ≤ key a) := by
  induction l with
  | nil => simp [sortDescBy]
  | cons x xs ih => exact pairwise_insertDescBy ih

theorem fetchDesc_pairwise (key : α → Nat) (cap : Nat) (p : α → Bool) (l : List α) :
    (fetchDesc key cap p l).Pairwise (fun a b => key b ≤ key a) :=
  List.Pairwise.sublist (List.take_sublist cap _) (pairwise_sortDescBy key _)

theorem fetchDesc_length (key : α → Nat) (cap : Nat) (p : α → Bool) (l : List α) :
    (fetchDesc key cap p l).length = min cap (l.filter p).length := by
  unfold fetchDesc
  rw [List.length_take, (sortDescBy_perm key _).length_eq]

theorem fetchDesc_perm {key : α → Nat} {cap : Nat} {p : α → Bool} {l : List α}
    (h : (l.filter p).length ≤ cap) :
    List.Perm (fetchDesc key cap p l) (l.filter p) := by
  unfold fetchDesc
  rw [List.take_of_length_le (by rw [(sortDescBy_perm key _).length_eq]; exact h)]
  exact sortDescBy_perm key _

theorem updateOne_of_forall_not {p : α → Bool} {f : α → α} {l : List α}
    (h : ∀ x ∈ l, p x = false) : updateOne p f l = (l, 0) := by
  induction l with
  | nil => rfl
  | cons x xs ih =>
    have hx := h x (by simp)
    have ih' := ih (fun y hy => h y (by simp [hy]))
    simp [updateOne, hx, ih']

theorem updateOne_of_find? {p : α → Bool} {f : α → α} {l : List α} {a : α}
    (h : l.find? p = some a) :
    ∃ pre post, l = pre ++ a :: post ∧ (∀ x ∈ pre, p x = false) ∧
      updateOne p f l = (pre ++ f a :: post, 1) := by
  induction l with
  | nil => simp [List.find?] at h
  | cons x xs ih =>
    by_cases hx : p x = true
    · rw [List.find?_cons_of_pos _ hx] at h
      obtain rfl : x = a := by injection h
      exact ⟨[], xs, by simp, by simp, by simp [updateOne, hx]⟩
    · have hx' : p x = false := by simpa using hx
      rw [List.find?_cons_of_neg _ hx] at h
      obtain ⟨pre, post, heq, hpre, hupd⟩ := ih h
      refine ⟨x :: pre, post, by simp [heq], fun y hy => ?_, by simp [updateOne, hx', hupd]⟩
      rcases List.mem_cons.mp hy with rfl | hy
      · exact hx'
      · exact hpre y hy

theorem deleteOne_of_forall_not {p : α → Bool} {l : List α}
    (h : ∀ x ∈ l, p x = false) : deleteOne p l = (l, 0) := by
  induction l with
  | nil => rfl
  | cons x xs ih =>
    have hx := h x (by simp)
    have ih' := ih (fun y hy => h y (by simp [hy]))
    simp [deleteOne, hx, ih']

theorem deleteOne_of_find? {p : α → Bool} {l : List α} {a : α}
    (h : l.find? p = some a) :
    ∃ pre post, l = pre ++ a :: post ∧ (∀ x ∈ pre, p x = false) ∧
      deleteOne p l = (pre ++ post, 1) := by
  induction l with
  | nil => simp [List.find?] at h
  | cons x xs ih =>
    by_cases hx : p x = true
    · rw [List.find?_cons_of_pos _ hx] at h
      obtain rfl : x = a := by injection h
      exact ⟨[], xs, by simp, by simp, by simp [deleteOne, hx]⟩
    · have hx' : p x = false := by simpa using hx
      rw [List.find?_cons_of_neg _ hx] at h
      obtain ⟨pre, post, heq, hpre, hdel⟩ := ih h
      refine ⟨x :: pre, post, by simp [heq], fun y hy => ?_, by simp [deleteOne, hx', hdel]⟩
      rcases List.mem_cons.mp hy with rfl | hy
      · exact hx'
      · exact hpre y hy

theorem find?_append_middle {p : α → Bool} {pre post : List α} {a : α}
    (hpre : ∀ x ∈ pre, p x = false) (ha : p a = true) :
    (pre ++ a :: post).find? p = some a := by
  induction pre with
  | nil => simp [List.find?_cons_of_pos _ ha]
  | cons x xs ih =>
    have hx : p x = false := hpre x (by simp)
    rw [List.cons_append, List.find?_cons_of_neg _ (by simp [hx])]
    exact ih (fun y hy => hpre y (by simp [hy]))

set_option maxRecDepth 40000 in
/-- Known-answer test: the embedding reproduces the FIPS 180-4 reference
digest of "abc", so `hash_pin` agrees with `hashlib.sha256(...).hexdigest()`. -/
theorem hash_pin_kat_abc :
    hash_pin "abc" = "ba7816bf8f01cfea414140de5dae2223b00361a396177a9cb410ff61f20015ad" := by
  decide

set_option maxRecDepth 40000 in
/-- Known-answer test for the PIN used by the fixtures. -/
theorem hash_pin_kat_1234 :
    hash_pin "1234" = "03ac674216f3e15c761ee1a5e255f067953623c8b388b4459e13f978d7c846f4" := by
  decide

/-! ### The digest factors through a finite type -/

theorem w32_lt (x : Nat) : w32 x < 4294967296 := by
  unfold w32
  exact Nat.mod_lt _ (by norm_num)

theorem length_compressStep (st : List Nat) (kw : Nat × Nat) :
    (compressStep st kw).length = st.length := by
  unfold compressStep
  split
  · simp
  · rfl

theorem length_foldl_compressStep (l : List (Nat × Nat)) (st : List Nat) :
    (l.foldl compressStep st).length = st.length := by
  induction l generalizing st with
  | nil => rfl
  | cons kw l ih => rw [List.foldl_cons, ih, length_compressStep]

theorem allW32_zipW32 (l1 l2 : List Nat) :
    allW32 (List.zipWith (fun a b => w32 (a + b)) l1 l2) := by
  induction l1 generalizing l2 with
  | nil => intro x hx; simp at hx
  | cons a l ih =>
    cases l2 with
    | nil => intro x hx; simp at hx
    | cons b l2 =>
      intro x hx
      rcases List.mem_cons.mp hx with rfl | hx
      · exact w32_lt _
      · exact ih l2 x hx

theorem length_compressBlock (h : List Nat) (block : List Nat) :
    (compressBlock h block).length = h.length := by
  unfold compressBlock
  rw [List.length_zipWith, length_foldl_compressStep]
  simp

theorem allW32_compressBlock (h : List Nat) (block : List Nat) :
    allW32 (compressBlock h block) := by
  unfold compressBlock
  exact allW32_zipW32 _ _

theorem foldl_compressBlock_inv (bs : List (List Nat)) (h : List Nat)
    (h8 : h.length = 8) (hw : allW32 h) :
    (bs.foldl compressBlock h).length = 8 ∧ allW32 (bs.foldl compressBlock h) := by
  induction bs generalizing h with
  | nil => exact ⟨h8, hw⟩
  | cons b bs ih =>
    exact ih _ (by rw [length_compressBlock, h8]) (allW32_compressBlock _ _)

theorem sha256Words_spec (msg : List Nat) :
    (sha256Words msg).length = 8 ∧ allW32 (sha256Words msg) := by
  unfold sha256Words
  exact foldl_compressBlock_inv _ _ (by rfl) (by unfold allW32; decide)

theorem foldl_base_inj : ∀ (l1 l2 : List Nat) (a1 a2 : Nat),
    l1.length = l2.length → allW32 l1 → allW32 l2 →
    l1.foldl (fun acc w => acc * 4294967296 + w) a1 =
      l2.foldl (fun acc w => acc * 4294967296 + w) a2 →
    a1 = a2 ∧ l1 = l2
  | [], [], a1, a2, _, _, _, h => ⟨h, rfl⟩
  | [], _ :: _, _, _, hlen, _, _, _ => by simp at hlen
  | _ :: _, [], _, _, hlen, _, _, _ => by simp at hlen
  | x :: l1, y :: l2, a1, a2, hlen, h1, h2, h => by
    simp only [List.foldl_cons] at h
    have hlen' : l1.length = l2.length := by simpa using hlen
    obtain ⟨hacc, htl⟩ := foldl_base_inj l1 l2 _ _ hlen'
      (fun z hz => h1 z (by simp [hz])) (fun z hz => h2 z (by simp [hz])) h
    have hx : x < 4294967296 := h1 x (by simp)
    have hy : y < 4294967296 := h2 y (by simp)
    have hxy : a1 = a2 ∧ x = y := by omega
    exact ⟨hxy.1, by rw [hxy.2, htl]⟩

theorem foldl_base_lt : ∀ (l : List Nat) (a : Nat), allW32 l →
    l.foldl (fun acc w => acc * 4294967296 + w) a < (a + 1) * 4294967296 ^ l.length
  | [], a, _ => by simp
  | x :: l, a, h => by
    simp only [List.foldl_cons, List.length_cons]
    have hx : x < 4294967296 := h x (by simp)
    have ih := foldl_base_lt l (a * 4294967296 + x) (fun z hz => h z (by simp [hz]))
    calc List.foldl (fun acc w => acc * 4294967296 + w) (a * 4294967296 + x) l
        < (a * 4294967296 + x + 1) * 4294967296 ^ l.length := ih
      _ ≤ ((a + 1) * 4294967296) * 4294967296 ^ l.length := by
          apply Nat.mul_le_mul_right
          omega
      _ = (a + 1) * 4294967296 ^ (l.length + 1) := by ring

theorem sha256Nat_lt (s : String) : sha256Nat s < 4294967296 ^ 8 := by
  unfold sha256Nat
  have h := sha256Words_spec (utf8Encode s)
  have hb := foldl_base_lt (sha256Words (utf8Encode s)) 0 h.2
  rw [h.1] at hb
  simpa using hb

theorem hash_pin_eq_of_sha256Nat_eq {a b : String} (h : sha256Nat a = sha256Nat b) :
    hash_pin a = hash_pin b := by
  have ha := sha256Words_spec (utf8Encode a)
  have hb := sha256Words_spec (utf8Encode b)
  have hw := foldl_base_inj _ _ 0 0 (by rw [ha.1, hb.1]) ha.2 hb.2 h
  unfold hash_pin sha256Hex
  rw [hw.2]

/-- `hash_pin` maps the infinitely many strings into at most 2^256 digests, so
it cannot be injective: colliding PINs exist (no explicit pair is known, but
their existence is forced by cardinality). -/
theorem hash_pin_not_injective : ¬ Function.Injective hash_pin := by
  intro hinj
  have hNatInj : Function.Injective
      (fun s => (⟨sha256Nat s, sha256Nat_lt s⟩ : Fin (4294967296 ^ 8))) := by
    intro a b hab
    exact hinj (hash_pin_eq_of_sha256Nat_eq (congrArg Fin.val hab))
  haveI : Finite String := Finite.of_injective _ hNatInj
  have hRep : Function.Injective (fun n : Nat => String.mk (List.replicate n 'a')) := by
    intro m n h
    have := congrArg (fun s => s.data.length) h
    simpa using this
  haveI : Finite Nat := Finite.of_injective _ hRep
  exact not_finite Nat

theorem hash_pin_collision : ∃ a b : String, a ≠ b ∧ hash_pin a = hash_pin b := by
  have h := hash_pin_not_injective
  rw [Function.not_injective_iff] at h
  obtain ⟨a, b, h1, h2⟩ := h
  exact ⟨a, b, h2, h1⟩

/-! ### Claim theorems -/

/-- Claim C9: document creation (POST /documents) always succeeds for every
input — in particular nothing constrains `doc.user_id` to reference an
existing user — and returns the created record, carrying the freshly
generated id and `created_at` / `updated_at` timestamps, equal to the record
that was persisted; no other collection changes. -/
theorem create_document_spec (db : DB) (doc : DocumentCreate) (genId : String) (now : Nat) :
    (create_document db doc genId now).2 =
      { id := genId, user_id := doc.user_id, doc_type := doc.doc_type,
        name := doc.name, image_base64 := doc.image_base64,
        created_at := now, updated_at := now } ∧
    (create_document db doc genId now).1.documents =
      db.documents ++ [(create_document db doc genId now).2] ∧
    (create_document db doc genId now).1.users = db.users ∧
    (create_document db doc genId now).1.access_logs = db.access_logs ∧
    (create_document db doc genId now).1.failed_attempts = db.failed_attempts ∧
    (create_document db doc genId now).1.intruder_photos = db.intruder_photos :=
  ⟨rfl, rfl, rfl, rfl, rfl, rfl⟩

/-- Claim C7: document deletion (DELETE /documents/id) fails with 404 for
every id with no matching stored document, and — provided stored document ids
are unique, which generated UUIDs are — a second deletion of a just-deleted id
also fails with 404 instead of silently succeeding. -/
theorem delete_document_spec (db : DB) (docId : String) :
    ((∀ d ∈ db.documents, d.id ≠ docId) →
      delete_document db docId = (db, Except.error ⟨404, "Document not found"⟩)) ∧
    ((db.documents.map (fun d => d.id)).Nodup →
      ∀ db2 r, delete_document db docId = (db2, Except.ok r) →
        delete_document db2 docId = (db2, Except.error ⟨404, "Document not found"⟩)) := by
  constructor
  · intro h
    have hall : ∀ d ∈ db.documents, (fun d => d.id == docId) d = false := by
      intro d hd
      simpa using h d hd
    unfold delete_document
    rw [deleteOne_of_forall_not hall]
    rfl
  · intro hnd db2 r hok
    cases hf : db.documents.find? (fun d => d.id == docId) with
    | none =>
      have hall : ∀ d ∈ db.documents, (fun d => d.id == docId) d = false := by
        intro d hd
        simpa using List.find?_eq_none.mp hf d hd
      unfold delete_document at hok
      rw [deleteOne_of_forall_not hall] at hok
      simp at hok
    | some a =>
      obtain ⟨pre, post, heq, hpre, hdel⟩ := deleteOne_of_find? hf
      have hpa : (a.id == docId) = true := by simpa using List.find?_some hf
      unfold delete_document at hok
      rw [hdel] at hok
      have hok2 : (({ db with documents := pre ++ post } : DB),
          (Except.ok ⟨true, "Document deleted"⟩ : Except HTTPException MsgResponse)) =
          (db2, Except.ok r) := hok
      injection hok2 with hdb2 hr
      have hnomatch : ∀ d ∈ pre ++ post, (fun d => d.id == docId) d = false := by
        rw [heq] at hnd
        simp only [List.map_append, List.map_cons, List.nodup_append,
          List.nodup_cons] at hnd
        intro d hd
        rcases List.mem_append.mp hd with hd | hd
        · exact hpre d hd
        · have hne : d.id ≠ a.id := by
            intro hcontra
            exact hnd.2.1.1 (hcontra ▸ List.mem_map_of_mem (fun x => x.id) hd)
          simp only [beq_eq_false_iff_ne, ne_eq]
          intro hcontra
          exact hne (by rw [hcontra, eq_of_beq hpa])
      have hfinal : delete_document { db with documents := pre ++ post } docId =
          ({ db with documents := pre ++ post }, Except.error ⟨404, "Document not found"⟩) := by
        unfold delete_document
        rw [show ({ db with documents := pre ++ post } : DB).documents = pre ++ post from rfl,
          deleteOne_of_forall_not hnomatch]
        rfl
      rw [hdb2] at hfinal
      exact hfinal

/-- Witness for `delete_document_spec`: deleting from an empty store errors
with 404, and re-deleting the document just removed from `docDB` errors with
404 as well. -/
theorem delete_document_spec_witness :
    delete_document emptyDB "nope" = (emptyDB, Except.error ⟨404, "Document not found"⟩) ∧
    delete_document { docDB with documents := [] } "d1" =
      ({ docDB with documents := [] }, Except.error ⟨404, "Document not found"⟩) := by
  constructor
  · exact (delete_document_spec emptyDB "nope").1 (by decide)
  · exact (delete_document_spec docDB "d1").2 (by decide)
      { docDB with documents := [] } ⟨true, "Document deleted"⟩ rfl

/-- Claim C8 counterexample: updating `docDB`'s document with the supplied
name `""` succeeds but does not overwrite the stored name — the empty string
is falsy, so it is dropped from `update_data` — refuting "every field supplied
in the request overwrites the stored value". -/
theorem update_document_empty_string_counterexample :
    (some "" : Option String) ≠ none ∧
    (update_document docDB "d1" (some "") none 9).2 = Except.ok ⟨true, "Document updated"⟩ ∧
    (update_document docDB "d1" (some "") none 9).1.documents.map (fun d => d.name) =
      ["old name"] ∧
    (update_document docDB "d1" (some "") none 9).1.documents.map (fun d => d.name) ≠ [""] := by
  refine ⟨by simp, rfl, rfl, by decide⟩

/-- Claim C8 (amended): document update (PUT /documents/id) performs a partial
update of the first matching document: every truthy (non-empty) supplied field
overwrites the stored value, `updated_at` is refreshed, every other stored
field (`id`, `user_id`, `doc_type`, `created_at`, and any field not supplied
or supplied as the falsy `""`) is unchanged, the surrounding documents and all
other collections are untouched, and the call fails with 404 — with the
document store unchanged — when no document matches the id. -/
theorem update_document_spec (db : DB) (docId : String) (name image_base64 : Option String)
    (now : Nat) :
    ((∀ d ∈ db.documents, d.id ≠ docId) →
      update_document db docId name image_base64 now =
        (db, Except.error ⟨404, "Document not found"⟩)) ∧
    (∀ d, db.documents.find? (fun x => x.id == docId) = some d →
      ∃ pre post, db.documents = pre ++ d :: post ∧
        (update_document db docId name image_base64 now).1.documents =
          pre ++ applyDocSet name image_base64 now d :: post ∧
        applyDocSet name image_base64 now d =
          { d with
            updated_at := now,
            name := if pyTruthy name then name.getD d.name else d.name,
            image_base64 := if pyTruthy image_base64 then image_base64.getD d.image_base64
                            else d.image_base64 } ∧
        (update_document db docId name image_base64 now).2 =
          Except.ok ⟨true, "Document updated"⟩ ∧
        (update_document db docId name image_base64 now).1.users = db.users ∧
        (update_document db docId name image_base64 now).1.access_logs = db.access_logs ∧
        (update_document db docId name image_base64 now).1.failed_attempts =
          db.failed_attempts ∧
        (update_document db docId name image_base64 now).1.intruder_photos =
          db.intruder_photos) := by
  constructor
  · intro h
    have hall : ∀ d ∈ db.documents, (fun x => x.id == docId) d = false := by
      intro d hd
      simpa using h d hd
    unfold update_document
    rw [updateOne_of_forall_not hall]
    rfl
  · intro d hf
    obtain ⟨pre, post, heq, hpre, hupd⟩ :=
      updateOne_of_find? (f := applyDocSet name image_base64 now) hf
    refine ⟨pre, post, heq, ?_, rfl, ?_, ?_, ?_, ?_, ?_⟩ <;>
      · unfold update_document
        rw [hupd]
        rfl

/-- Witness for `update_document_spec`: the 404 case on an empty store, and a
real partial update of `docDB`'s document with a truthy name. -/
theorem update_document_spec_witness :
    update_document emptyDB "d1" (some "n") none 9 =
      (emptyDB, Except.error ⟨404, "Document not found"⟩) ∧
    ∃ pre post, docDB.documents = pre ++
        { id := "d1", user_id := "u", doc_type := "id", name := "old name",
          image_base64 := "imgdata", created_at := 5, updated_at := 5 } :: post ∧
      (update_document docDB "d1" (some "new name") none 9).1.documents =
        pre ++ applyDocSet (some "new name") none 9
          { id := "d1", user_id := "u", doc_type := "id", name := "old name",
            image_base64 := "imgdata", created_at := 5, updated_at := 5 } :: post := by
  constructor
  · exact (update_document_spec emptyDB "d1" (some "n") none 9).1 (by decide)
  · obtain ⟨pre, post, h1, h2, -⟩ :=
      (update_document_spec docDB "d1" (some "new name") none 9).2
        { id := "d1", user_id := "u", doc_type := "id", name := "old name",
          image_base64 := "imgdata", created_at := 5, updated_at := 5 } rfl
    exact ⟨pre, post, h1, h2⟩

/-- Claim C2 counterexample: `caseDB` already holds `Alice@example.com`; the
same email resubmitted in lower case is accepted and a second user is stored,
because `create_user` looks the email up with an exact, case-sensitive match —
refuting "this holds irrespective of the letter case in which the
already-registered email is resubmitted". -/
theorem create_user_case_insensitive_counterexample :
    (∃ u ∈ caseDB.users, pyLower u.email = pyLower "alice@example.com") ∧
    (create_user caseDB ⟨"alice@example.com", "0000"⟩ "u2" 1).2.isOk = true ∧
    (create_user caseDB ⟨"alice@example.com", "0000"⟩ "u2" 1).1.users.length = 2 := by
  refine ⟨by decide, rfl, rfl⟩

/-- Claim C2 (amended): user creation (POST /users) fails with 400 Conflict —
and stores no new User — exactly when a stored user carries the identical
(case-sensitive) email string; otherwise the new user is appended.  The
lookup on this path does not lowercase, so case variants of a registered email
are not detected as duplicates. -/
theorem create_user_conflict_spec (db : DB) (user : UserCreate) (genId : String) (now : Nat) :
    ((∃ u ∈ db.users, u.email = user.email) →
      create_user db user genId now = (db, Except.error ⟨400, "User already exists"⟩)) ∧
    ((∀ u ∈ db.users, u.email ≠ user.email) →
      create_user db user genId now =
        ({ db with users := db.users ++
            [{ id := genId, email := user.email, pin_hash := hash_pin user.pin,
               created_at := now, is_premium := false }] },
         Except.ok { id := genId, email := user.email, created_at := now,
                     is_premium := false })) := by
  constructor
  · rintro ⟨u, hu, he⟩
    have hsome : (db.users.find? (fun x => x.email == user.email)).isSome := by
      rw [List.find?_isSome]
      exact ⟨u, hu, by simp [he]⟩
    obtain ⟨v, hv⟩ := Option.isSome_iff_exists.mp hsome
    unfold create_user
    rw [hv]
  · intro h
    have hnone : db.users.find? (fun x => x.email == user.email) = none := by
      rw [List.find?_eq_none]
      intro u hu
      simp [h u hu]
    unfold create_user
    rw [hnone]

/-- Witness for `create_user_conflict_spec`: the exact registered email is
rejected with 400 and nothing is stored; a fresh email is stored and echoed. -/
theorem create_user_conflict_spec_witness :
    create_user caseDB ⟨"Alice@example.com", "0000"⟩ "u2" 1 =
      (caseDB, Except.error ⟨400, "User already exists"⟩) ∧
    create_user emptyDB ⟨"b@example.com", "0000"⟩ "u9" 2 =
      ({ emptyDB with users := [{ id := "u9", email := "b@example.com",
                                   pin_hash := hash_pin "0000", created_at := 2,
                                   is_premium := false }] },
       Except.ok { id := "u9", email := "b@example.com", created_at := 2,
                   is_premium := false }) := by
  constructor
  · exact (create_user_conflict_spec caseDB ⟨"Alice@example.com", "0000"⟩ "u2" 1).1
      (by exact ⟨{ id := "u1", email := "Alice@example.com", pin_hash := hash_pin "1234",
                   created_at := 0, is_premium := false }, by simp [caseDB, emptyDB], rfl⟩)
  · exact (create_user_conflict_spec emptyDB ⟨"b@example.com", "0000"⟩ "u9" 2).2
      (by intro u hu; simp [emptyDB] at hu)

/-- Claim C1 counterexample: an alert request whose `intruder_photo` is the
empty string.  The photo field is supplied (`is not None`, so the stored
attempt gets `has_photo = true`), yet no IntruderPhoto record is persisted,
because the storage guard is Python truthiness (`if data.intruder_photo:`) —
refuting "if an intruder photo is supplied, exactly one IntruderPhoto record
is also persisted". -/
theorem send_failed_alert_photo_counterexample :
    emptyPhotoAlert.intruder_photo ≠ none ∧
    (send_failed_alert emptyDB emptyPhotoAlert "a1" "p1" 7 none false).1.intruder_photos = [] ∧
    (send_failed_alert emptyDB emptyPhotoAlert "a1" "p1" 7 none false).1.failed_attempts.map
      (fun a => a.has_photo) = [some true] := by
  refine ⟨by simp [emptyPhotoAlert], rfl, rfl⟩

/-- Claim C1 (amended): every call to POST /failed-attempt/alert persists
exactly one new FailedAttempt record — with `has_photo` recording whether the
photo field was present — regardless of whether the email dispatch succeeds,
fails, or the provider credential is absent; if a *non-empty* intruder photo
is supplied, exactly one IntruderPhoto record is persisted whose `attempt_id`
equals the new FailedAttempt's id (an empty-string photo stores none); the
other collections are untouched; and the operation returns a boolean success
flag plus a message — false whenever the SendGrid key is absent — rather than
raising. -/
theorem send_failed_alert_spec (db : DB) (data : EmailAlertRequest)
    (attemptId photoId : String) (now : Nat) (key : Option String) (outcome : Bool) :
    (send_failed_alert db data attemptId photoId now key outcome).1.failed_attempts =
      db.failed_attempts ++
        [{ id := attemptId, user_id := data.user_id, timestamp := now,
           latitude := data.latitude, longitude := data.longitude,
           has_photo := some data.intruder_photo.isSome }] ∧
    (pyTruthy data.intruder_photo = true →
      (send_failed_alert db data attemptId photoId now key outcome).1.intruder_photos =
        db.intruder_photos ++
          [{ id := photoId, attempt_id := attemptId, user_id := data.user_id,
             timestamp := now, photo_base64 := data.intruder_photo.getD "" }]) ∧
    (pyTruthy data.intruder_photo = false →
      (send_failed_alert db data attemptId photoId now key outcome).1.intruder_photos =
        db.intruder_photos) ∧
    (send_failed_alert db data attemptId photoId now key outcome).1.users = db.users ∧
    (send_failed_alert db data attemptId photoId now key outcome).1.documents =
      db.documents ∧
    (send_failed_alert db data attemptId photoId now key outcome).1.access_logs =
      db.access_logs ∧
    (send_failed_alert db data attemptId photoId now key outcome).2.success =
      send_failed_attempt_email key outcome ∧
    (key = none →
      (send_failed_alert db data attemptId photoId now key outcome).2.success = false) := by
  cases hp : pyTruthy data.intruder_photo
  · refine ⟨?_, ?_, ?_, ?_, ?_, ?_, ?_, ?_⟩ <;>
      simp_all [send_failed_alert, send_failed_attempt_email]
  · refine ⟨?_, ?_, ?_, ?_, ?_, ?_, ?_, ?_⟩ <;>
      simp_all [send_failed_alert, send_failed_attempt_email]

/-- Witness for `send_failed_alert_spec`: with a real photo and no SendGrid
key, both records are persisted and the reported success flag is false. -/
theorem send_failed_alert_spec_witness :
    (send_failed_alert emptyDB photoAlert "a1" "p1" 7 none true).1.failed_attempts =
      [{ id := "a1", user_id := "u", timestamp := 7, latitude := some 1,
         longitude := some 2, has_photo := some true }] ∧
    (send_failed_alert emptyDB photoAlert "a1" "p1" 7 none true).1.intruder_photos =
      [{ id := "p1", attempt_id := "a1", user_id := "u", timestamp := 7,
         photo_base64 := "base64photo" }] ∧
    (send_failed_alert emptyDB photoAlert "a1" "p1" 7 none true).2.success = false := by
  obtain ⟨h1, h2, -, -, -, -, -, h8⟩ :=
    send_failed_alert_spec emptyDB photoAlert "a1" "p1" 7 none true
  exact ⟨h1, h2 (by decide), h8 rfl⟩

/-- Claim C3: PIN verification (POST /users/verify-pin) on an existing user
returns success = true iff the digest of the submitted pin equals the stored
`pin_hash` — and `verify_pin pin hashed` is true iff `hash_pin pin = hashed` —
and it fails with 404 when no user with the given id exists. -/
theorem verify_user_pin_spec (db : DB) (data : PinVerify) :
    (∀ p h, verify_pin p h = true ↔ hash_pin p = h) ∧
    (∀ u, db.users.find? (fun x => x.id == data.user_id) = some u →
      ∃ r, verify_user_pin db data = (db, Except.ok r) ∧
        (r.success = true ↔ hash_pin data.pin = u.pin_hash)) ∧
    (db.users.find? (fun x => x.id == data.user_id) = none →
      verify_user_pin db data = (db, Except.error ⟨404, "User not found"⟩)) := by
  refine ⟨?_, ?_, ?_⟩
  · intro p h
    unfold verify_pin
    exact beq_iff_eq
  · intro u hu
    unfold verify_user_pin
    rw [hu]
    by_cases hv : verify_pin data.pin u.pin_hash = true
    · have he : hash_pin data.pin = u.pin_hash := by simpa [verify_pin] using hv
      exact ⟨⟨true, "PIN verified"⟩, by simp [hv], by simp [he]⟩
    · have he : ¬ hash_pin data.pin = u.pin_hash := by simpa [verify_pin] using hv
      refine ⟨⟨false, "Invalid PIN"⟩, by simp [hv], by simp [he]⟩
  · intro hn
    unfold verify_user_pin
    rw [hn]

/-- Witness for `verify_user_pin_spec`: the registered user of `pinDB`
verifies with the PIN whose digest is stored. -/
theorem verify_user_pin_spec_witness :
    ∃ r, verify_user_pin pinDB ⟨"u1", "1234"⟩ = (pinDB, Except.ok r) ∧
      (r.success = true ↔ hash_pin "1234" = hash_pin "1234") := by
  obtain ⟨-, h2, -⟩ := verify_user_pin_spec pinDB ⟨"u1", "1234"⟩
  exact h2 { id := "u1", email := "a@example.com", pin_hash := hash_pin "1234",
             created_at := 0, is_premium := false } rfl

/-- Claim C10: verifying a wrong PIN for an existing user answers success =
false through the ordinary 200 path (`Except.ok`) and leaves the database —
every collection, in particular `failed_attempts` — unchanged; failed attempts
enter the ledger only through POST /failed-attempt and
POST /failed-attempt/alert, and every other mutating route also preserves
`failed_attempts`. -/
theorem verify_wrong_pin_frame_spec (db : DB) (data : PinVerify) (u : UserRecord)
    (h1 : db.users.find? (fun x => x.id == data.user_id) = some u)
    (h2 : hash_pin data.pin ≠ u.pin_hash) :
    verify_user_pin db data = (db, Except.ok ⟨false, "Invalid PIN"⟩) ∧
    (∀ uc genId now, (create_user db uc genId now).1.failed_attempts =
      db.failed_attempts) ∧
    (∀ uid op np, (update_pin db uid op np).1.failed_attempts = db.failed_attempts) ∧
    (∀ dc genId now, (create_document db dc genId now).1.failed_attempts =
      db.failed_attempts) ∧
    (∀ docId nm im now, (update_document db docId nm im now).1.failed_attempts =
      db.failed_attempts) ∧
    (∀ docId, (delete_document db docId).1.failed_attempts = db.failed_attempts) ∧
    (∀ oc genId now, (log_officer_access db oc genId now).1.failed_attempts =
      db.failed_attempts) ∧
    (∀ uid, (get_access_logs db uid).1 = db ∧ (get_failed_attempts db uid).1 = db ∧
      (export_access_logs db uid 0).1 = db) ∧
    (∀ fc genId now, (log_failed_attempt db fc genId now).1.failed_attempts =
      db.failed_attempts ++
        [{ id := genId, user_id := fc.user_id, timestamp := now,
           latitude := fc.latitude, longitude := fc.longitude, has_photo := none }]) ∧
    (∀ ar aid pid now key oc, (send_failed_alert db ar aid pid now key oc).1.failed_attempts =
      db.failed_attempts ++
        [{ id := aid, user_id := ar.user_id, timestamp := now,
           latitude := ar.latitude, longitude := ar.longitude,
           has_photo := some ar.intruder_photo.isSome }]) := by
  refine ⟨?_, ?_, ?_, ?_, ?_, ?_, ?_, ?_, ?_, ?_⟩
  · have hv : verify_pin data.pin u.pin_hash = false := by
      simp [verify_pin, h2]
    unfold verify_user_pin
    rw [h1]
    simp [hv]
  · intro uc genId now
    unfold create_user
    cases db.users.find? (fun x => x.email == uc.email) <;> rfl
  · intro uid op np
    unfold update_pin
    cases db.users.find? (fun x => x.id == uid) with
    | none => rfl
    | some v => by_cases hv : verify_pin op v.pin_hash = true <;> simp [hv]
  · intro dc genId now
    rfl
  · intro docId nm im now
    simp only [update_document]
    split <;> rfl
  · intro docId
    simp only [delete_document]
    split <;> rfl
  · intro oc genId now
    rfl
  · intro uid
    exact ⟨rfl, rfl, rfl⟩
  · intro fc genId now
    rfl
  · intro ar aid pid now key oc
    unfold send_failed_alert
    split <;> rfl

set_option maxRecDepth 40000 in
/-- Witness for `verify_wrong_pin_frame_spec`: submitting "0000" against the
stored digest of "1234" fails softly and changes nothing. -/
theorem verify_wrong_pin_frame_spec_witness :
    verify_user_pin pinDB ⟨"u1", "0000"⟩ = (pinDB, Except.ok ⟨false, "Invalid PIN"⟩) := by
  exact (verify_wrong_pin_frame_spec pinDB ⟨"u1", "0000"⟩
    { id := "u1", email := "a@example.com", pin_hash := hash_pin "1234",
      created_at := 0, is_premium := false } rfl (by decide)).1

/-- Claim C4 counterexample: the claim quantifies over *every* pair of
distinct PINs, so it asserts in particular that after changing a PIN to any
distinct value the old PIN never verifies — which would make `hash_pin`
injective on strings.  `hash_pin` maps infinitely many strings into at most
2^256 digests, so colliding PINs exist, and for such a pair the old PIN still
verifies after the change.  This proves the claim's universally quantified
verify-old-fails part false. -/
theorem update_pin_distinct_pins_counterexample :
    ¬ (∀ (db : DB) (uid old_pin new_pin : String) (u : UserRecord) (db2 : DB)
        (r : MsgResponse),
        db.users.find? (fun x => x.id == uid) = some u →
        u.pin_hash = hash_pin old_pin →
        old_pin ≠ new_pin →
        update_pin db uid old_pin new_pin = (db2, Except.ok r) →
        (verify_user_pin db2 ⟨uid, old_pin⟩).2 = Except.ok ⟨false, "Invalid PIN"⟩) := by
  intro H
  apply hash_pin_not_injective
  intro a b hab
  by_contra hne
  have hfind : (mkUserDB (hash_pin a)).users.find? (fun x => x.id == "u") =
      some (mkUser (hash_pin a)) := by
    simp [mkUserDB, mkUser, List.find?]
  have hverify : verify_pin a (hash_pin a) = true := by simp [verify_pin]
  have hupd : update_pin (mkUserDB (hash_pin a)) "u" a b =
      (mkUserDB (hash_pin b), Except.ok ⟨true, "PIN updated"⟩) := by
    unfold update_pin
    rw [hfind]
    simp [mkUserDB, mkUser, hverify, updateOne]
  have hfalse := H _ "u" a b _ _ _ hfind rfl hne hupd
  have htrue : (verify_user_pin (mkUserDB (hash_pin b)) ⟨"u", a⟩).2 =
      Except.ok ⟨true, "PIN verified"⟩ := by
    have hv2 : verify_pin a (hash_pin b) = true := by simp [verify_pin, hab]
    unfold verify_user_pin
    simp [mkUserDB, mkUser, List.find?, hv2]
  rw [htrue] at hfalse
  simp at hfalse

/-- Claim C4 (amended): for every user whose stored digest is that of
`old_pin`, after change_pin (PUT /users/{id}/pin) succeeds, verifying
`new_pin` returns true, and — provided the two PINs' digests differ, which
distinct PINs satisfy absent a SHA-256 collision — verifying `old_pin`
returns false; change_pin fails with 401 when `old_pin` does not verify and
404 when the user is absent, leaving the database (hence the stored digest)
unchanged in both failure cases. -/
theorem update_pin_spec (db : DB) (uid old_pin new_pin : String) :
    (∀ u, db.users.find? (fun x => x.id == uid) = some u →
      (u.pin_hash = hash_pin old_pin →
        ∃ db2, update_pin db uid old_pin new_pin = (db2, Except.ok ⟨true, "PIN updated"⟩) ∧
          (verify_user_pin db2 ⟨uid, new_pin⟩).2 = Except.ok ⟨true, "PIN verified"⟩ ∧
          (hash_pin old_pin ≠ hash_pin new_pin →
            (verify_user_pin db2 ⟨uid, old_pin⟩).2 = Except.ok ⟨false, "Invalid PIN"⟩)) ∧
      (hash_pin old_pin ≠ u.pin_hash →
        update_pin db uid old_pin new_pin = (db, Except.error ⟨401, "Invalid current PIN"⟩))) ∧
    (db.users.find? (fun x => x.id == uid) = none →
      update_pin db uid old_pin new_pin = (db, Except.error ⟨404, "User not found"⟩)) := by
  constructor
  · intro u hu
    constructor
    · intro hdig
      have hv : verify_pin old_pin u.pin_hash = true := by simp [verify_pin, hdig]
      obtain ⟨pre, post, heq, hpre, hupd⟩ :=
        updateOne_of_find? (f := fun x => { x with pin_hash := hash_pin new_pin }) hu
      have hid : (u.id == uid) = true := by simpa using List.find?_some hu
      refine ⟨{ db with users := pre ++ { u with pin_hash := hash_pin new_pin } :: post },
        ?_, ?_, ?_⟩
      · unfold update_pin
        rw [hu]
        simp only [hv, if_true]
        rw [hupd]
      · have hfind2 : (pre ++ { u with pin_hash := hash_pin new_pin } :: post).find?
            (fun x => x.id == uid) = some { u with pin_hash := hash_pin new_pin } :=
          find?_append_middle hpre (by simpa using hid)
        unfold verify_user_pin
        rw [show ({ db with users := pre ++ { u with pin_hash := hash_pin new_pin } :: post} : DB).users
            = pre ++ { u with pin_hash := hash_pin new_pin } :: post from rfl, hfind2]
        have hv2 : verify_pin new_pin (hash_pin new_pin) = true := by simp [verify_pin]
        simp [hv2]
      · intro hne
        have hfind2 : (pre ++ { u with pin_hash := hash_pin new_pin } :: post).find?
            (fun x => x.id == uid) = some { u with pin_hash := hash_pin new_pin } :=
          find?_append_middle hpre (by simpa using hid)
        unfold verify_user_pin
        rw [show ({ db with users := pre ++ { u with pin_hash := hash_pin new_pin } :: post} : DB).users
            = pre ++ { u with pin_hash := hash_pin new_pin } :: post from rfl, hfind2]
        have hv2 : verify_pin old_pin (hash_pin new_pin) = false := by
          simp [verify_pin, hne]
        simp [hv2]
    · intro hne
      have hv : verify_pin old_pin u.pin_hash = false := by simp [verify_pin, hne]
      unfold update_pin
      rw [hu]
      simp [hv]
  · intro hn
    unfold update_pin
    rw [hn]

set_option maxRecDepth 40000 in
/-- Witness for `update_pin_spec`: changing `pinDB`'s PIN from "1234" to
"5678" succeeds; "5678" then verifies and "1234" no longer does (their
digests differ, checked by evaluation). -/
theorem update_pin_spec_witness :
    ∃ db2, update_pin pinDB "u1" "1234" "5678" = (db2, Except.ok ⟨true, "PIN updated"⟩) ∧
      (verify_user_pin db2 ⟨"u1", "5678"⟩).2 = Except.ok ⟨true, "PIN verified"⟩ ∧
      (verify_user_pin db2 ⟨"u1", "1234"⟩).2 = Except.ok ⟨false, "Invalid PIN"⟩ := by
  obtain ⟨h1, -⟩ := update_pin_spec pinDB "u1" "1234" "5678"
  obtain ⟨hsucc, -⟩ := h1 pinUser rfl
  obtain ⟨db2, ha, hb, hc⟩ := hsucc rfl
  exact ⟨db2, ha, hb, hc (by decide)⟩

set_option maxRecDepth 1000000 in
/-- Claim C5 counterexample: with 1001 stored access records for one user the
export report contains only 1000 entries, so it does not contain the full
list of that user's access records — the fetch is capped at 1000. -/
theorem export_access_logs_cap_counterexample :
    (bigDB.access_logs.filter (fun a => a.user_id == "u")).length = 1001 ∧
    (export_access_logs bigDB "u" 0).2.logs.length = 1000 ∧
    (export_access_logs bigDB "u" 0).2.logs ≠
      (sortDescBy (fun a => a.timestamp)
        (bigDB.access_logs.filter (fun a => a.user_id == "u"))).map mkExportLogEntry := by
  have h1 : (bigDB.access_logs.filter (fun a => a.user_id == "u")).length = 1001 := by decide
  have h2 : (export_access_logs bigDB "u" 0).2.logs.length = 1000 := by decide
  refine ⟨h1, h2, fun h => ?_⟩
  have hlen := congrArg List.length h
  rw [h2, List.length_map, (sortDescBy_perm _ _).length_eq, h1] at hlen
  exact absurd hlen (by decide)

/-- Claim C5 (amended): the access-log export (GET /access-log/{user_id}/export)
returns a report whose `user_email` is the owning user's email, or "Unknown"
when that user no longer exists, whose `total_accesses` equals the number of
log entries contained in the report, and which contains that user's access
records — up to the fetch cap of 1000 — ordered by timestamp descending, with
every timestamp normalized to the single `isoformat` textual rendering; the
operation is read-only and stores nothing. -/
theorem export_access_logs_spec (db : DB) (uid : String) (now : Nat) :
    (export_access_logs db uid now).1 = db ∧
    (∀ u, db.users.find? (fun x => x.id == uid) = some u →
      (export_access_logs db uid now).2.user_email = u.email) ∧
    (db.users.find? (fun x => x.id == uid) = none →
      (export_access_logs db uid now).2.user_email = "Unknown") ∧
    (export_access_logs db uid now).2.total_accesses =
      (export_access_logs db uid now).2.logs.length ∧
    (export_access_logs db uid now).2.export_date = isoformat now ∧
    (∃ recs : List OfficerAccess,
      (export_access_logs db uid now).2.logs = recs.map mkExportLogEntry ∧
      recs.Pairwise (fun a b => b.timestamp ≤ a.timestamp) ∧
      recs.length = min 1000 (db.access_logs.filter (fun a => a.user_id == uid)).length ∧
      ((db.access_logs.filter (fun a => a.user_id == uid)).length ≤ 1000 →
        List.Perm recs (db.access_logs.filter (fun a => a.user_id == uid)))) := by
  refine ⟨rfl, ?_, ?_, ?_, rfl, ?_⟩
  · intro u hu
    unfold export_access_logs
    rw [hu]
  · intro hn
    unfold export_access_logs
    rw [hn]
  · show (fetchDesc (fun a => a.timestamp) 1000 (fun a => a.user_id == uid)
      db.access_logs).length = ((fetchDesc (fun a => a.timestamp) 1000
      (fun a => a.user_id == uid) db.access_logs).map mkExportLogEntry).length
    rw [List.length_map]
  · exact ⟨fetchDesc (fun a => a.timestamp) 1000 (fun a => a.user_id == uid) db.access_logs,
      rfl, fetchDesc_pairwise _ _ _ _, fetchDesc_length _ _ _ _, fun h => fetchDesc_perm h⟩

/-- Witness for `export_access_logs_spec`: exporting for a user id that no
longer resolves reports "Unknown" and a consistent count. -/
theorem export_access_logs_spec_witness :
    (export_access_logs listsDB "u" 9).1 = listsDB ∧
    (export_access_logs listsDB "u" 9).2.user_email = "Unknown" ∧
    (export_access_logs listsDB "u" 9).2.total_accesses =
      (export_access_logs listsDB "u" 9).2.logs.length := by
  obtain ⟨ha, -, hc, hd, -, -⟩ := export_access_logs_spec listsDB "u" 9
  exact ⟨ha, hc rfl, hd⟩

/-- Claim C6: `list_access` (GET /access-log/{user_id}) returns that user's
access records ordered by timestamp descending capped at 1000, and
`list_failed_attempts` (GET /failed-attempts/{user_id}) returns that user's
failed attempts ordered by timestamp descending capped at 100, projected to
exactly the fields id, timestamp, latitude, longitude (the `FailedAttemptView`
shape); when at most cap-many records exist, the listing returns all of them
(as a permutation of the stored matching records, in descending order). -/
theorem list_endpoints_spec (db : DB) (uid : String) :
    (get_access_logs db uid).2.Pairwise (fun a b => b.timestamp ≤ a.timestamp) ∧
    (get_access_logs db uid).2.length =
      min 1000 (db.access_logs.filter (fun a => a.user_id == uid)).length ∧
    ((db.access_logs.filter (fun a => a.user_id == uid)).length ≤ 1000 →
      List.Perm (get_access_logs db uid).2
        (db.access_logs.filter (fun a => a.user_id == uid))) ∧
    (get_access_logs db uid).1 = db ∧
    (∃ recs : List FailedAttemptDoc,
      (get_failed_attempts db uid).2 = recs.map
        (fun a => { id := a.id, timestamp := a.timestamp,
                    latitude := a.latitude, longitude := a.longitude }) ∧
      recs.Pairwise (fun a b => b.timestamp ≤ a.timestamp) ∧
      recs.length = min 100 (db.failed_attempts.filter (fun a => a.user_id == uid)).length ∧
      ((db.failed_attempts.filter (fun a => a.user_id == uid)).length ≤ 100 →
        List.Perm recs (db.failed_attempts.filter (fun a => a.user_id == uid)))) ∧
    (get_failed_attempts db uid).1 = db := by
  refine ⟨fetchDesc_pairwise _ _ _ _, fetchDesc_length _ _ _ _,
    fun h => fetchDesc_perm h, rfl, ?_, rfl⟩
  exact ⟨fetchDesc (fun a => a.timestamp) 100 (fun a => a.user_id == uid) db.failed_attempts,
    rfl, fetchDesc_pairwise _ _ _ _, fetchDesc_length _ _ _ _, fun h => fetchDesc_perm h⟩

/-- Witness for `list_endpoints_spec`: both stores of `listsDB` are under the
caps, so listing returns exactly the stored records of user "u", newest
first. -/
theorem list_endpoints_spec_witness :
    List.Perm (get_access_logs listsDB "u").2
      (listsDB.access_logs.filter (fun a => a.user_id == "u")) ∧
    (∃ recs : List FailedAttemptDoc,
      (get_failed_attempts listsDB "u").2 = recs.map
        (fun a => { id := a.id, timestamp := a.timestamp,
                    latitude := a.latitude, longitude := a.longitude }) ∧
      List.Perm recs (listsDB.failed_attempts.filter (fun a => a.user_id == "u"))) := by
  obtain ⟨-, -, h3, -, h5, -⟩ := list_endpoints_spec listsDB "u"
  obtain ⟨recs, he, -, -, hp⟩ := h5
  exact ⟨h3 (by decide), recs, he, hp (by decide)⟩
